import Mathlib

/-!
# geth-relay: the JSON-RPC relay core

A shallow embedding of `rpc/types.go`, `rpc/client.go` and `proxy/proxy.go`.

* Go pointers that may be nil (`*JSONRPCError`, the entries of `[]*JSONRPCRequest`
  and `[]*JSONRPCResponse`) are `Option`s; dereferencing `none` is a `Fault`.
* `json.RawMessage` fields tagged `omitempty` are `Option String`: `none` is the nil
  (absent) raw message, `some s` the raw JSON text `s`.
* The packages `encoding/json` and `net/http` and the network behind them are not part of
  the repository; the client reaches them through the fields of `rpc.Env`, which every
  theorem quantifies over.
* Logging has no influence on any returned value and is left out.
* The `ctx` argument only travels to `http.NewRequestWithContext` and `httpClient.Do`;
  whatever it causes there (cancellation, deadline) is an outcome of those `Env` fields.
* The relay's calls into the forwarding client are recorded in a `proxy.Trace` that is
  threaded through `HandleRequest` and `HandleBatchRequest`.
-/

namespace rpc

/-- The dynamic value held by an `ID interface{}` field: nil, a number, a string, or any
other decoded JSON value (kept as its JSON text). -/
inductive IDValue where
  | null
  | number (n : Int)
  | string (s : String)
  | other (raw : String)
  deriving DecidableEq, Repr

/-- Go `type JSONRPCRequest struct` of rpc/types.go. -/
structure JSONRPCRequest where
  JSONRPC : String
  Method : String
  Params : Option String
  ID : IDValue
  deriving DecidableEq, Repr

/-- Go `type JSONRPCError struct` of rpc/types.go; `Data` is nil (`none`) or a value kept as
its JSON text. -/
structure JSONRPCError where
  Code : Int
  Message : String
  Data : Option String
  deriving DecidableEq, Repr

/-- Go `type JSONRPCResponse struct` of rpc/types.go. -/
structure JSONRPCResponse where
  JSONRPC : String
  Result : Option String
  Error : Option JSONRPCError
  ID : IDValue
  deriving DecidableEq, Repr

def ParseError : Int := -32700
def InvalidRequest : Int := -32600
def MethodNotFound : Int := -32601
def InvalidParams : Int := -32602
def InternalError : Int := -32603
def ServerError : Int := -32000

def ErrRequestTooLarge : JSONRPCError :=
  { Code := InvalidRequest, Message := "request body too large", Data := none }

def ErrBatchTooLarge : JSONRPCError :=
  { Code := InvalidRequest, Message := "batch request exceeds limit", Data := none }

def ErrUpstreamTimeout : JSONRPCError :=
  { Code := ServerError, Message := "upstream request timeout", Data := none }

def ErrUpstreamError : JSONRPCError :=
  { Code := ServerError, Message := "upstream error", Data := none }

/-- Go `func NewErrorResponse(id interface{}, code int, message string) *JSONRPCResponse`. -/
def NewErrorResponse (id : IDValue) (code : Int) (message : String) : JSONRPCResponse :=
  { JSONRPC := "2.0"
    Result := none
    Error := some { Code := code, Message := message, Data := none }
    ID := id }

/-- Go `http.StatusOK`. -/
def StatusOK : Int := 200
/-- Go `http.StatusRequestTimeout`. -/
def StatusRequestTimeout : Int := 408
/-- Go `http.StatusGatewayTimeout`. -/
def StatusGatewayTimeout : Int := 504

/-- The outbound `*http.Request` built by the client. -/
structure HTTPRequest where
  Method : String
  URL : String
  Body : String
  ContentType : Option String
  deriving DecidableEq, Repr

/-- The `*http.Response` handed back by `httpClient.Do`: its status code, and what
`io.ReadAll(httpResp.Body)` yields (the body text, or the read error). -/
structure HTTPResponse where
  StatusCode : Int
  Body : Except String String

/-- The library and network operations the client calls, as parameters: each returns
either its value or the text of the Go `error`. -/
structure Env where
  /-- Go `json.Marshal(req)` for a single request. -/
  Marshal : JSONRPCRequest → Except String String
  /-- Go `json.Marshal(reqs)` for a batch. -/
  MarshalBatch : List (Option JSONRPCRequest) → Except String String
  /-- Go `http.NewRequestWithContext(ctx, method, url, bytes.NewReader(body))`. -/
  NewRequestWithContext : String → String → String → Except String HTTPRequest
  /-- Go `c.httpClient.Do(httpReq)`. -/
  Do : HTTPRequest → Except String HTTPResponse
  /-- Go `json.Unmarshal(respBody, &rpcResp)` into one `JSONRPCResponse`. -/
  Unmarshal : String → Except String JSONRPCResponse
  /-- Go `json.Unmarshal(respBody, &rpcResps)` into a `[]*JSONRPCResponse`. -/
  UnmarshalBatch : String → Except String (List (Option JSONRPCResponse))

/-- Go `type Client struct` of rpc/client.go (the logger left out); `env` stands for the
packages and the transport behind `httpClient`. -/
structure Client where
  url : String
  env : Env

/-- Go `httpReq.Header.Set("Content-Type", "application/json")`. -/
def HTTPRequest.setContentType (r : HTTPRequest) (v : String) : HTTPRequest :=
  { r with ContentType := some v }

/-- Go `func (c *Client) forwardSingle(ctx, req) (*JSONRPCResponse, error)`. -/
def Client.forwardSingle (c : Client) (req : JSONRPCRequest) : Except String JSONRPCResponse :=
  match c.env.Marshal req with
  | .error err => .error ("failed to marshal request: " ++ err)
  | .ok reqBody =>
    match c.env.NewRequestWithContext "POST" c.url reqBody with
    | .error err => .error ("failed to create request: " ++ err)
    | .ok httpReq0 =>
      let httpReq := httpReq0.setContentType "application/json"
      match c.env.Do httpReq with
      | .error err => .error ("upstream request failed: " ++ err)
      | .ok httpResp =>
        match httpResp.Body with
        | .error err => .error ("failed to read response: " ++ err)
        | .ok respBody =>
          if httpResp.StatusCode ≠ StatusOK then
            let errMsg :=
              if httpResp.StatusCode = StatusRequestTimeout
                  ∨ httpResp.StatusCode = StatusGatewayTimeout then
                "upstream timeout"
              else "upstream error"
            .ok (NewErrorResponse req.ID ServerError errMsg)
          else
            match c.env.Unmarshal respBody with
            | .error err => .error ("failed to unmarshal response: " ++ err)
            | .ok rpcResp => .ok rpcResp

/-- Go `func (c *Client) Forward(ctx, req) (*JSONRPCResponse, error)`. -/
def Client.Forward (c : Client) (req : JSONRPCRequest) : Except String JSONRPCResponse :=
  c.forwardSingle req

/-- Go `func (c *Client) ForwardBatch(ctx, reqs) ([]*JSONRPCResponse, error)`. -/
def Client.ForwardBatch (c : Client) (reqs : List (Option JSONRPCRequest)) :
    Except String (List (Option JSONRPCResponse)) :=
  match c.env.MarshalBatch reqs with
  | .error err => .error ("failed to marshal batch request: " ++ err)
  | .ok reqBody =>
    match c.env.NewRequestWithContext "POST" c.url reqBody with
    | .error err => .error ("failed to create batch request: " ++ err)
    | .ok httpReq0 =>
      let httpReq := httpReq0.setContentType "application/json"
      match c.env.Do httpReq with
      | .error err => .error ("upstream batch request failed: " ++ err)
      | .ok httpResp =>
        match httpResp.Body with
        | .error err => .error ("failed to read batch response: " ++ err)
        | .ok respBody =>
          if httpResp.StatusCode ≠ StatusOK then
            .error ("upstream returned status " ++ toString httpResp.StatusCode)
          else
            match c.env.UnmarshalBatch respBody with
            | .error err => .error ("failed to unmarshal batch response: " ++ err)
            | .ok rpcResps => .ok rpcResps

/-- The Response `r` is what `json.Unmarshal` decoded from the body of the HTTP 200 reply
the upstream gave to the single request `req` sent through `c`. -/
def Client.DecodedFromReply (c : Client) (req : JSONRPCRequest) (r : JSONRPCResponse) : Prop :=
  ∃ (reqBody body : String) (httpReq : HTTPRequest) (resp : HTTPResponse),
    c.env.Marshal req = .ok reqBody
      ∧ c.env.NewRequestWithContext "POST" c.url reqBody = .ok httpReq
      ∧ c.env.Do (httpReq.setContentType "application/json") = .ok resp
      ∧ resp.StatusCode = 200
      ∧ resp.Body = .ok body
      ∧ c.env.Unmarshal body = .ok r

/-- The sequence `s` is what `json.Unmarshal` decoded from the body of the HTTP 200 reply
the upstream gave to the batch `reqs` sent through `c`. -/
def Client.DecodedFromBatchReply (c : Client) (reqs : List (Option JSONRPCRequest))
    (s : List (Option JSONRPCResponse)) : Prop :=
  ∃ (reqBody body : String) (httpReq : HTTPRequest) (resp : HTTPResponse),
    c.env.MarshalBatch reqs = .ok reqBody
      ∧ c.env.NewRequestWithContext "POST" c.url reqBody = .ok httpReq
      ∧ c.env.Do (httpReq.setContentType "application/json") = .ok resp
      ∧ resp.StatusCode = 200
      ∧ resp.Body = .ok body
      ∧ c.env.UnmarshalBatch body = .ok s

end rpc

namespace proxy

open rpc

/-- Go `type Proxy struct` of proxy/proxy.go (the logger left out). -/
structure Proxy where
  client : Client
  maxBatchItems : Int
  maxBatchSize : Int

/-- Go `func New(client, logger, maxBatchItems, maxBatchSize int) *Proxy`. -/
def New (client : Client) (maxBatchItems maxBatchSize : Int) : Proxy :=
  { client := client, maxBatchItems := maxBatchItems, maxBatchSize := maxBatchSize }

/-- One invocation of the forwarding client by the relay, with its argument. -/
inductive ClientCall where
  | Forward (req : JSONRPCRequest)
  | ForwardBatch (reqs : List (Option JSONRPCRequest))
  deriving DecidableEq, Repr

/-- The invocations of the forwarding client so far, oldest first. -/
abbrev Trace := List ClientCall

/-- A run-time panic of the Go program. -/
inductive Fault where
  | nilPointerDereference
  deriving DecidableEq, Repr

/-- Go `func (p *Proxy) HandleRequest(ctx, req *rpc.JSONRPCRequest) *rpc.JSONRPCResponse`,
started with trace `t`; returns the response and the trace afterwards. -/
def Proxy.HandleRequest (p : Proxy) (req : JSONRPCRequest) (t : Trace) :
    JSONRPCResponse × Trace :=
  if req.JSONRPC ≠ "2.0" then
    (NewErrorResponse req.ID InvalidRequest "jsonrpc must be 2.0", t)
  else if req.Method = "" then
    (NewErrorResponse req.ID InvalidRequest "method cannot be empty", t)
  else
    match p.client.Forward req with
    | .error _ =>
      (NewErrorResponse req.ID InternalError "failed to forward request to upstream",
        t ++ [ClientCall.Forward req])
    | .ok resp => (resp, t ++ [ClientCall.Forward req])

/-- The loop `for i, req := range reqs { if req.JSONRPC != "2.0" { return ... } }` of
`HandleBatchRequest`: `some resp` when the loop returns `resp` early, `none` when it runs
to its end, a fault when it reads `req.JSONRPC` through a nil entry. -/
def Proxy.HandleBatchRequest.checkVersions :
    List (Option JSONRPCRequest) → Except Fault (Option JSONRPCResponse)
  | [] => .ok none
  | none :: _ => .error Fault.nilPointerDereference
  | some req :: rest =>
    if req.JSONRPC ≠ "2.0" then
      .ok (some (NewErrorResponse req.ID InvalidRequest "jsonrpc must be 2.0"))
    else Proxy.HandleBatchRequest.checkVersions rest

/-- The loop `for i, req := range reqs { errorResps[i] = rpc.NewErrorResponse(req.ID, ...) }`
of `HandleBatchRequest`. -/
def Proxy.HandleBatchRequest.errorResps :
    List (Option JSONRPCRequest) → Except Fault (List (Option JSONRPCResponse))
  | [] => .ok []
  | none :: _ => .error Fault.nilPointerDereference
  | some req :: rest =>
    match Proxy.HandleBatchRequest.errorResps rest with
    | .error f => .error f
    | .ok tail =>
      .ok (some (NewErrorResponse req.ID InternalError "failed to forward batch request") :: tail)

/-- Go `func (p *Proxy) HandleBatchRequest(ctx, reqs []*rpc.JSONRPCRequest) []*rpc.JSONRPCResponse`,
started with trace `t`; returns the response slice (or the panic) and the trace
afterwards. -/
def Proxy.HandleBatchRequest (p : Proxy) (reqs : List (Option JSONRPCRequest)) (t : Trace) :
    Except Fault (List (Option JSONRPCResponse)) × Trace :=
  if reqs.length = 0 then
    (.ok [some (NewErrorResponse IDValue.null InvalidRequest "empty batch request")], t)
  else if (reqs.length : Int) > p.maxBatchItems then
    (.ok [some { JSONRPC := "2.0", Result := none, Error := some ErrBatchTooLarge,
                 ID := IDValue.null }], t)
  else
    match Proxy.HandleBatchRequest.checkVersions reqs with
    | .error f => (.error f, t)
    | .ok (some resp) => (.ok [some resp], t)
    | .ok none =>
      match p.client.ForwardBatch reqs with
      | .error _ => (Proxy.HandleBatchRequest.errorResps reqs, t ++ [ClientCall.ForwardBatch reqs])
      | .ok resps => (.ok resps, t ++ [ClientCall.ForwardBatch reqs])

/-- Exactly one of `result` and `error` is present in the response. -/
def ExactlyOneOfResultError (r : JSONRPCResponse) : Prop :=
  (r.Result.isSome = true ∧ r.Error.isSome = false)
    ∨ (r.Result.isSome = false ∧ r.Error.isSome = true)

instance (r : JSONRPCResponse) : Decidable (ExactlyOneOfResultError r) := by
  unfold ExactlyOneOfResultError; infer_instance

/-- The response sequence `out` answers the batch `reqs` position by position: it has the
same length, and at every index holding a request it holds a Response with that
request's id. -/
def AlignedWith (reqs : List (Option JSONRPCRequest)) (out : List (Option JSONRPCResponse)) :
    Prop :=
  out.length = reqs.length
    ∧ ∀ (i : Nat) (r : JSONRPCRequest), reqs[i]? = some (some r) →
        ∃ resp : JSONRPCResponse, out[i]? = some (some resp) ∧ resp.ID = r.ID

end proxy

/-! ## Concrete environments used to instantiate the theorems -/

namespace fixtures

open rpc proxy

/-- A stand-in for `json.Marshal` on a request: renders the method and the raw params. -/
def marshalStub (req : JSONRPCRequest) : Except String String :=
  .ok ("\x7b\"jsonrpc\":\"" ++ req.JSONRPC ++ "\",\"method\":\"" ++ req.Method
        ++ "\",\"params\":" ++ req.Params.getD "null" ++ "\x7d")

/-- A stand-in for `json.Marshal` on a batch: only the number of entries is rendered. -/
def marshalBatchStub (reqs : List (Option JSONRPCRequest)) : Except String String :=
  .ok ("[" ++ toString reqs.length ++ " entries]")

/-- A stand-in for `http.NewRequestWithContext` that never fails. -/
def newRequestStub (method url body : String) : Except String HTTPRequest :=
  .ok { Method := method, URL := url, Body := body, ContentType := none }

/-- An upstream that refuses the connection. -/
def envRefused : Env :=
  { Marshal := marshalStub
    MarshalBatch := marshalBatchStub
    NewRequestWithContext := newRequestStub
    Do := fun _ => .error "dial tcp 127.0.0.1:8546: connect: connection refused"
    Unmarshal := fun _ => .error "unexpected end of JSON input"
    UnmarshalBatch := fun _ => .error "unexpected end of JSON input" }

/-- An upstream that answers every call with HTTP `status` and body `body`; the decoders
know that one body: it decodes to `single` as an object and to `batch` as an array. -/
def envReply (status : Int) (body : String) (single : Except String JSONRPCResponse)
    (batch : Except String (List (Option JSONRPCResponse))) : Env :=
  { Marshal := marshalStub
    MarshalBatch := marshalBatchStub
    NewRequestWithContext := newRequestStub
    Do := fun _ => .ok { StatusCode := status, Body := .ok body }
    Unmarshal := fun b => if b = body then single else .error "invalid character"
    UnmarshalBatch := fun b => if b = body then batch else .error "invalid character" }

def clientRefused : Client := { url := "http://localhost:8546", env := envRefused }

def proxyRefused : Proxy := New clientRefused 100 25000000

/-- The reply of TestProxy_HandleRequest: HTTP 200 with a result for id 1. -/
def respOk : JSONRPCResponse :=
  { JSONRPC := "2.0", Result := some "\"0x123\"", Error := none, ID := IDValue.number 1 }

def bodyOk : String := "\x7b\"jsonrpc\":\"2.0\",\"result\":\"0x123\",\"id\":1\x7d"

def proxyOk : Proxy :=
  New { url := "http://upstream", env := envReply 200 bodyOk (.ok respOk)
          (.error "cannot unmarshal object into Go value") } 100 25000000

/-- An upstream whose 200 reply is not JSON. -/
def proxyGarbled : Proxy :=
  New { url := "http://upstream", env := envReply 200 "<html>" (.error "invalid character")
          (.error "invalid character") } 100 25000000

def reqBlockNumber : JSONRPCRequest :=
  { JSONRPC := "2.0", Method := "eth_blockNumber", Params := some "[]", ID := IDValue.number 1 }

def reqOldVersion : JSONRPCRequest :=
  { JSONRPC := "1.0", Method := "eth_blockNumber", Params := none, ID := IDValue.number 1 }

def reqEmptyMethod : JSONRPCRequest :=
  { JSONRPC := "2.0", Method := "", Params := none, ID := IDValue.string "abc" }

def reqGasPrice : JSONRPCRequest :=
  { JSONRPC := "2.0", Method := "eth_gasPrice", Params := some "[]", ID := IDValue.number 2 }

def reqChainId : JSONRPCRequest :=
  { JSONRPC := "2.0", Method := "eth_chainId", Params := none, ID := IDValue.number 3 }

/-- The proxy of TestProxy_HandleBatchRequestExceedsLimit: at most two items per batch. -/
def proxyLimitTwo : Proxy := New clientRefused 2 25000000

/-- The reply of TestProxy_HandleBatchRequest: HTTP 200 with two results. -/
def respsOk : List (Option JSONRPCResponse) :=
  [ some { JSONRPC := "2.0", Result := some "\"0x1\"", Error := none, ID := IDValue.number 1 },
    some { JSONRPC := "2.0", Result := some "\"0x2\"", Error := none, ID := IDValue.number 2 } ]

def bodyBatchOk : String :=
  "[\x7b\"jsonrpc\":\"2.0\",\"result\":\"0x1\",\"id\":1\x7d,"
    ++ "\x7b\"jsonrpc\":\"2.0\",\"result\":\"0x2\",\"id\":2\x7d]"

def proxyBatchOk : Proxy :=
  New { url := "http://upstream", env := envReply 200 bodyBatchOk
          (.error "cannot unmarshal array into Go value") (.ok respsOk) } 100 25000000

/-- An upstream that answers HTTP 200 with the JSON array `[]`, which `json.Unmarshal`
decodes into an empty `[]*JSONRPCResponse` without error. -/
def proxyEmptyArray : Proxy :=
  New { url := "http://upstream", env := envReply 200 "[]"
          (.error "cannot unmarshal array into Go value") (.ok []) } 100 25000000

/-- An upstream that answers HTTP 200 with an object carrying neither `result` nor
`error`, which `json.Unmarshal` decodes with both fields left nil. -/
def respNeither : JSONRPCResponse :=
  { JSONRPC := "2.0", Result := none, Error := none, ID := IDValue.number 1 }

def proxyNeither : Proxy :=
  New { url := "http://upstream", env := envReply 200 "\x7b\"jsonrpc\":\"2.0\",\"id\":1\x7d"
          (.ok respNeither) (.error "cannot unmarshal object into Go value") } 100 25000000

/-- A proxy whose upstream answers one fixed body that decodes, as an object and as an
array, to responses with exactly one of `result` and `error`. -/
def proxyWellFormed : Proxy :=
  New { url := "http://upstream", env := envReply 200 bodyBatchOk (.ok respOk) (.ok respsOk) }
    100 25000000

/-- The upstream of TestClient_ForwardError: HTTP 500 with a plain-text body. -/
def clientStatus500 : Client :=
  { url := "http://upstream", env := envReply 500 "server error"
      (.error "invalid character") (.error "invalid character") }

/-- An upstream that answers HTTP 504 (gateway timeout). -/
def clientStatus504 : Client :=
  { url := "http://upstream", env := envReply 504 "gateway timeout"
      (.error "invalid character") (.error "invalid character") }

/-- An upstream that answers HTTP 201 (a 2xx status other than 200) with a well-formed
JSON-RPC Response body. -/
def clientStatus201 : Client :=
  { url := "http://upstream", env := envReply 201 bodyOk (.ok respOk)
      (.error "cannot unmarshal object into Go value") }

/-- The client of `proxyOk`: HTTP 200 with a well-formed JSON-RPC Response body. -/
def clientStatus200 : Client :=
  { url := "http://upstream", env := envReply 200 bodyOk (.ok respOk)
      (.error "cannot unmarshal object into Go value") }

/-- The request built by `newRequestStub` for `reqBlockNumber`, before the header is set. -/
def httpReqBlockNumber : HTTPRequest :=
  { Method := "POST", URL := "http://upstream",
    Body := "\x7b\"jsonrpc\":\"2.0\",\"method\":\"eth_blockNumber\",\"params\":[]\x7d",
    ContentType := none }

/-- The request built by `newRequestStub` for a two-entry batch. -/
def httpReqBatchOfTwo : HTTPRequest :=
  { Method := "POST", URL := "http://upstream", Body := "[2 entries]", ContentType := none }

/-- An upstream that answers with HTTP `status` and then breaks the connection, so that
`io.ReadAll(httpResp.Body)` fails. -/
def envUnreadable (status : Int) : Env :=
  { Marshal := marshalStub
    MarshalBatch := marshalBatchStub
    NewRequestWithContext := newRequestStub
    Do := fun _ => .ok { StatusCode := status, Body := .error "unexpected EOF" }
    Unmarshal := fun _ => .error "unexpected end of JSON input"
    UnmarshalBatch := fun _ => .error "unexpected end of JSON input" }

/-- An upstream that answers HTTP 500 with a body that cannot be read. -/
def clientStatus500Unreadable : Client :=
  { url := "http://upstream", env := envUnreadable 500 }

/-- A proxy in front of the upstream that answers HTTP 500 with a plain-text body. -/
def proxyStatus500 : Proxy := New clientStatus500 100 25000000

end fixtures

/-! ## Single requests -/

namespace proxy

open rpc

/-- C1: a request whose version is not "2.0", or whose version is "2.0" but whose method
is empty, gets an error envelope with version "2.0", code InvalidRequest (-32600), no
result and the request's id, and the forwarding client is not invoked (the trace is
unchanged). -/
theorem HandleRequest_rejects_invalid (p : Proxy) (req : JSONRPCRequest) (t : Trace)
    (h : req.JSONRPC ≠ "2.0" ∨ (req.JSONRPC = "2.0" ∧ req.Method = "")) :
    (p.HandleRequest req t).1.JSONRPC = "2.0"
      ∧ (∃ e, (p.HandleRequest req t).1.Error = some e ∧ e.Code = -32600
          ∧ e.Code = InvalidRequest)
      ∧ (p.HandleRequest req t).1.Result = none
      ∧ (p.HandleRequest req t).1.ID = req.ID
      ∧ (p.HandleRequest req t).2 = t := by
  rcases h with hv | ⟨hv, hm⟩
  · simp [Proxy.HandleRequest, hv, NewErrorResponse, InvalidRequest]
  · simp [Proxy.HandleRequest, hv, hm, NewErrorResponse, InvalidRequest]

theorem HandleRequest_rejects_invalid_witness :
    (fixtures.reqEmptyMethod.JSONRPC ≠ "2.0"
        ∨ (fixtures.reqEmptyMethod.JSONRPC = "2.0" ∧ fixtures.reqEmptyMethod.Method = ""))
      ∧ (fixtures.proxyOk.HandleRequest fixtures.reqEmptyMethod []).1.JSONRPC = "2.0"
      ∧ (∃ e, (fixtures.proxyOk.HandleRequest fixtures.reqEmptyMethod []).1.Error = some e
          ∧ e.Code = -32600 ∧ e.Code = InvalidRequest)
      ∧ (fixtures.proxyOk.HandleRequest fixtures.reqEmptyMethod []).1.Result = none
      ∧ (fixtures.proxyOk.HandleRequest fixtures.reqEmptyMethod []).1.ID
          = fixtures.reqEmptyMethod.ID
      ∧ (fixtures.proxyOk.HandleRequest fixtures.reqEmptyMethod []).2 = [] :=
  ⟨by decide, HandleRequest_rejects_invalid fixtures.proxyOk fixtures.reqEmptyMethod []
    (by decide)⟩

/-- C2: for a request with version "2.0" and a non-empty method, when the forwarding
client's Forward succeeds with `r`, HandleRequest returns exactly `r` (all four fields
are those of `r`). -/
theorem HandleRequest_passes_through (p : Proxy) (req : JSONRPCRequest) (t : Trace)
    (r : JSONRPCResponse) (hv : req.JSONRPC = "2.0") (hm : req.Method ≠ "")
    (hf : p.client.Forward req = .ok r) :
    (p.HandleRequest req t).1 = r
      ∧ (p.HandleRequest req t).1.JSONRPC = r.JSONRPC
      ∧ (p.HandleRequest req t).1.Result = r.Result
      ∧ (p.HandleRequest req t).1.Error = r.Error
      ∧ (p.HandleRequest req t).1.ID = r.ID := by
  have h : (p.HandleRequest req t).1 = r := by
    simp [Proxy.HandleRequest, hv, hm, hf]
  simp [h]

theorem HandleRequest_passes_through_witness :
    fixtures.reqBlockNumber.JSONRPC = "2.0" ∧ fixtures.reqBlockNumber.Method ≠ ""
      ∧ fixtures.proxyOk.client.Forward fixtures.reqBlockNumber = .ok fixtures.respOk
      ∧ (fixtures.proxyOk.HandleRequest fixtures.reqBlockNumber []).1 = fixtures.respOk
      ∧ (fixtures.proxyOk.HandleRequest fixtures.reqBlockNumber []).1.JSONRPC
          = fixtures.respOk.JSONRPC
      ∧ (fixtures.proxyOk.HandleRequest fixtures.reqBlockNumber []).1.Result
          = fixtures.respOk.Result
      ∧ (fixtures.proxyOk.HandleRequest fixtures.reqBlockNumber []).1.Error
          = fixtures.respOk.Error
      ∧ (fixtures.proxyOk.HandleRequest fixtures.reqBlockNumber []).1.ID
          = fixtures.respOk.ID :=
  ⟨by decide, by decide, rfl,
    HandleRequest_passes_through fixtures.proxyOk fixtures.reqBlockNumber []
      fixtures.respOk (by decide) (by decide) rfl⟩

/-- C3: for a request with version "2.0" and a non-empty method, when Forward fails, for
whatever reason, HandleRequest returns the InternalError (-32603) envelope with the
request's id and the fixed message "failed to forward request to upstream"; two proxies
whose clients fail for different reasons return the same Response. -/
theorem HandleRequest_hides_failure (p q : Proxy) (req : JSONRPCRequest) (t : Trace)
    (e₁ e₂ : String) (hv : req.JSONRPC = "2.0") (hm : req.Method ≠ "")
    (h₁ : p.client.Forward req = .error e₁) (h₂ : q.client.Forward req = .error e₂) :
    (p.HandleRequest req t).1
        = { JSONRPC := "2.0", Result := none,
            Error := some { Code := -32603,
                            Message := "failed to forward request to upstream",
                            Data := none },
            ID := req.ID }
      ∧ (p.HandleRequest req t).1 = (q.HandleRequest req t).1 := by
  simp [Proxy.HandleRequest, hv, hm, h₁, h₂, NewErrorResponse, InternalError]

theorem HandleRequest_hides_failure_witness :
    fixtures.reqBlockNumber.JSONRPC = "2.0" ∧ fixtures.reqBlockNumber.Method ≠ ""
      ∧ fixtures.proxyRefused.client.Forward fixtures.reqBlockNumber
          = .error ("upstream request failed: "
              ++ "dial tcp 127.0.0.1:8546: connect: connection refused")
      ∧ fixtures.proxyGarbled.client.Forward fixtures.reqBlockNumber
          = .error "failed to unmarshal response: invalid character"
      ∧ (fixtures.proxyRefused.HandleRequest fixtures.reqBlockNumber []).1
          = { JSONRPC := "2.0", Result := none,
              Error := some { Code := -32603,
                              Message := "failed to forward request to upstream",
                              Data := none },
              ID := fixtures.reqBlockNumber.ID }
      ∧ (fixtures.proxyRefused.HandleRequest fixtures.reqBlockNumber []).1
          = (fixtures.proxyGarbled.HandleRequest fixtures.reqBlockNumber []).1 :=
  ⟨by decide, by decide, rfl, rfl,
    HandleRequest_hides_failure fixtures.proxyRefused fixtures.proxyGarbled
      fixtures.reqBlockNumber [] _ _ (by decide) (by decide) rfl rfl⟩

/-! ## Batches -/

/-- The version loop runs to its end on a batch of present requests that all carry
version "2.0". -/
theorem checkVersions_all_valid (rs : List JSONRPCRequest)
    (h : ∀ r ∈ rs, r.JSONRPC = "2.0") :
    Proxy.HandleBatchRequest.checkVersions (rs.map some) = .ok none := by
  induction rs with
  | nil => rfl
  | cons r rest ih =>
    have hr : r.JSONRPC = "2.0" := h r (List.mem_cons_self r rest)
    have hrest : ∀ x ∈ rest, x.JSONRPC = "2.0" :=
      fun x hx => h x (List.mem_cons_of_mem r hx)
    simp [Proxy.HandleBatchRequest.checkVersions, hr, ih hrest]

/-- The version loop returns at the first entry whose version is not "2.0". -/
theorem checkVersions_first_invalid (reqs : List (Option JSONRPCRequest)) (k : Nat)
    (rk : JSONRPCRequest) (hk : reqs[k]? = some (some rk)) (hbad : rk.JSONRPC ≠ "2.0")
    (hprev : ∀ i, i < k → ∃ r, reqs[i]? = some (some r) ∧ r.JSONRPC = "2.0") :
    Proxy.HandleBatchRequest.checkVersions reqs
      = .ok (some (NewErrorResponse rk.ID InvalidRequest "jsonrpc must be 2.0")) := by
  induction reqs generalizing k with
  | nil => simp at hk
  | cons x rest ih =>
    cases k with
    | zero =>
      simp at hk
      subst hk
      simp [Proxy.HandleBatchRequest.checkVersions, hbad]
    | succ j =>
      obtain ⟨r, hr0, hrv⟩ := hprev 0 (Nat.succ_pos j)
      simp at hr0
      subst hr0
      have hk2 : rest[j]? = some (some rk) := by simpa using hk
      have hprev2 : ∀ i, i < j → ∃ r, rest[i]? = some (some r) ∧ r.JSONRPC = "2.0" := by
        intro i hi
        simpa using hprev (i + 1) (Nat.succ_lt_succ hi)
      simp [Proxy.HandleBatchRequest.checkVersions, hrv, ih j hk2 hprev2]

/-- On a batch of present requests the version loop never faults: it either runs to its
end, when every version is "2.0", or returns one response. -/
theorem checkVersions_present (rs : List JSONRPCRequest) :
    (Proxy.HandleBatchRequest.checkVersions (rs.map some) = .ok none
        ∧ ∀ r ∈ rs, r.JSONRPC = "2.0")
      ∨ (∃ resp, Proxy.HandleBatchRequest.checkVersions (rs.map some) = .ok (some resp)
          ∧ (∃ r ∈ rs, r.JSONRPC ≠ "2.0")
          ∧ resp.Result = none ∧ resp.Error.isSome = true) := by
  induction rs with
  | nil => left; simp [Proxy.HandleBatchRequest.checkVersions]
  | cons r rest ih =>
    by_cases hr : r.JSONRPC = "2.0"
    · rcases ih with ⟨h1, h2⟩ | ⟨resp, h1, ⟨x, hx, hxv⟩, h3⟩
      · left
        refine ⟨by simp [Proxy.HandleBatchRequest.checkVersions, hr, h1], ?_⟩
        intro x hx
        rcases List.mem_cons.mp hx with rfl | hx
        · exact hr
        · exact h2 x hx
      · right
        exact ⟨resp, by simp [Proxy.HandleBatchRequest.checkVersions, hr, h1],
          ⟨x, List.mem_cons_of_mem r hx, hxv⟩, h3⟩
    · right
      exact ⟨NewErrorResponse r.ID InvalidRequest "jsonrpc must be 2.0",
        by simp [Proxy.HandleBatchRequest.checkVersions, hr],
        ⟨r, List.mem_cons_self r rest, hr⟩, by simp [NewErrorResponse]⟩

/-- On a batch of present requests the error loop builds one InternalError envelope per
request, in order. -/
theorem errorResps_present (rs : List JSONRPCRequest) :
    Proxy.HandleBatchRequest.errorResps (rs.map some)
      = .ok (rs.map fun r =>
          some (NewErrorResponse r.ID InternalError "failed to forward batch request")) := by
  induction rs with
  | nil => rfl
  | cons r rest ih => simp [Proxy.HandleBatchRequest.errorResps, ih]

/-- C4: for the empty batch and every proxy (so every maximum batch item count),
HandleBatchRequest returns exactly one Response, with error code InvalidRequest (-32600)
and id null, and the forwarding client is not invoked (the trace is unchanged). -/
theorem HandleBatchRequest_empty (p : Proxy) (t : Trace) :
    p.HandleBatchRequest [] t
      = (.ok [some { JSONRPC := "2.0", Result := none,
                     Error := some { Code := -32600, Message := "empty batch request",
                                     Data := none },
                     ID := IDValue.null }], t) := by
  simp [Proxy.HandleBatchRequest, NewErrorResponse, InvalidRequest]

/-- C5: for a non-empty batch longer than the maximum batch item count, whatever its
entries, HandleBatchRequest returns exactly one Response carrying the batch-too-large
error (code -32600, message "batch request exceeds limit") with id null, and the
forwarding client is not invoked (the trace is unchanged). -/
theorem HandleBatchRequest_too_large (p : Proxy) (reqs : List (Option JSONRPCRequest))
    (t : Trace) (hne : reqs ≠ []) (hlen : (reqs.length : Int) > p.maxBatchItems) :
    p.HandleBatchRequest reqs t
      = (.ok [some { JSONRPC := "2.0", Result := none,
                     Error := some { Code := -32600,
                                     Message := "batch request exceeds limit",
                                     Data := none },
                     ID := IDValue.null }], t) := by
  have h0 : reqs.length ≠ 0 := by
    intro h
    exact hne (List.length_eq_zero.mp h)
  simp [Proxy.HandleBatchRequest, h0, hlen, ErrBatchTooLarge, InvalidRequest]

theorem HandleBatchRequest_too_large_witness :
    [some fixtures.reqBlockNumber, some fixtures.reqOldVersion, some fixtures.reqEmptyMethod]
        ≠ []
      ∧ (([some fixtures.reqBlockNumber, some fixtures.reqOldVersion,
            some fixtures.reqEmptyMethod].length : Int) > fixtures.proxyLimitTwo.maxBatchItems)
      ∧ fixtures.proxyLimitTwo.HandleBatchRequest
          [some fixtures.reqBlockNumber, some fixtures.reqOldVersion,
            some fixtures.reqEmptyMethod] []
        = (.ok [some { JSONRPC := "2.0", Result := none,
                       Error := some { Code := -32600,
                                       Message := "batch request exceeds limit",
                                       Data := none },
                       ID := IDValue.null }], []) :=
  ⟨by decide, by decide,
    HandleBatchRequest_too_large fixtures.proxyLimitTwo
      [some fixtures.reqBlockNumber, some fixtures.reqOldVersion,
        some fixtures.reqEmptyMethod] [] (by decide) (by decide)⟩

/-- C6: for a non-empty batch within the maximum batch item count in which entry `k` has
a version other than "2.0" and entries `0..k-1` have version "2.0", HandleBatchRequest
returns exactly one Response, with error code InvalidRequest (-32600) and the id of
entry `k`, and the forwarding client is not invoked (the trace is unchanged). -/
theorem HandleBatchRequest_first_invalid (p : Proxy) (reqs : List (Option JSONRPCRequest))
    (t : Trace) (k : Nat) (rk : JSONRPCRequest)
    (hne : reqs ≠ []) (hlen : (reqs.length : Int) ≤ p.maxBatchItems)
    (hk : reqs[k]? = some (some rk)) (hbad : rk.JSONRPC ≠ "2.0")
    (hprev : ∀ i, i < k → ∃ r, reqs[i]? = some (some r) ∧ r.JSONRPC = "2.0") :
    p.HandleBatchRequest reqs t
      = (.ok [some { JSONRPC := "2.0", Result := none,
                     Error := some { Code := -32600, Message := "jsonrpc must be 2.0",
                                     Data := none },
                     ID := rk.ID }], t) := by
  have h0 : reqs.length ≠ 0 := by
    intro h
    exact hne (List.length_eq_zero.mp h)
  have hle : ¬ ((reqs.length : Int) > p.maxBatchItems) := not_lt.mpr hlen
  simp [Proxy.HandleBatchRequest, h0, hle,
    checkVersions_first_invalid reqs k rk hk hbad hprev, NewErrorResponse, InvalidRequest]

theorem HandleBatchRequest_first_invalid_witness :
    [some fixtures.reqBlockNumber, some fixtures.reqOldVersion, none] ≠ []
      ∧ (([some fixtures.reqBlockNumber, some fixtures.reqOldVersion, none].length : Int)
          ≤ fixtures.proxyRefused.maxBatchItems)
      ∧ [some fixtures.reqBlockNumber, some fixtures.reqOldVersion, none][1]?
          = some (some fixtures.reqOldVersion)
      ∧ fixtures.reqOldVersion.JSONRPC ≠ "2.0"
      ∧ fixtures.proxyRefused.HandleBatchRequest
          [some fixtures.reqBlockNumber, some fixtures.reqOldVersion, none] []
        = (.ok [some { JSONRPC := "2.0", Result := none,
                       Error := some { Code := -32600, Message := "jsonrpc must be 2.0",
                                       Data := none },
                       ID := fixtures.reqOldVersion.ID }], []) :=
  ⟨by decide, by decide, rfl, by decide,
    HandleBatchRequest_first_invalid fixtures.proxyRefused
      [some fixtures.reqBlockNumber, some fixtures.reqOldVersion, none] [] 1
      fixtures.reqOldVersion (by decide) (by decide) rfl (by decide)
      (fun i hi => by
        have h0 : i = 0 := by omega
        subst h0
        exact ⟨fixtures.reqBlockNumber, rfl, rfl⟩)⟩

/-- A batch whose entries are all present is the image of a list of requests. -/
theorem present_eq_map (reqs : List (Option JSONRPCRequest)) (h : ∀ x ∈ reqs, x ≠ none) :
    ∃ rs : List JSONRPCRequest, reqs = rs.map some := by
  induction reqs with
  | nil => exact ⟨[], rfl⟩
  | cons x rest ih =>
    obtain ⟨rs, hrs⟩ := ih (fun y hy => h y (List.mem_cons_of_mem x hy))
    cases x with
    | none => exact absurd rfl (h none (List.mem_cons_self none rest))
    | some r => exact ⟨r :: rs, by simp [hrs]⟩

/-- A batch whose entries are all present with version "2.0" is the image of a list of
requests with version "2.0". -/
theorem valid_eq_map (reqs : List (Option JSONRPCRequest))
    (h : ∀ x ∈ reqs, ∃ r, x = some r ∧ r.JSONRPC = "2.0") :
    ∃ rs : List JSONRPCRequest, reqs = rs.map some ∧ ∀ r ∈ rs, r.JSONRPC = "2.0" := by
  have hp : ∀ x ∈ reqs, x ≠ none := by
    intro x hx hnone
    obtain ⟨r, hr, _⟩ := h x hx
    simp [hnone] at hr
  obtain ⟨rs, hrs⟩ := present_eq_map reqs hp
  refine ⟨rs, hrs, ?_⟩
  intro r hr
  obtain ⟨r2, hr2, hv⟩ := h (some r) (by simp [hrs, hr])
  cases hr2
  exact hv

/-- C7: for a non-empty batch within the maximum batch item count whose entries all have
version "2.0", when ForwardBatch fails, HandleBatchRequest returns a sequence as long as
the input whose i-th Response is the InternalError (-32603) envelope built by
NewErrorResponse with the id of the i-th request. -/
theorem HandleBatchRequest_forward_failure (p : Proxy) (reqs : List (Option JSONRPCRequest))
    (t : Trace) (e : String)
    (hne : reqs ≠ []) (hlen : (reqs.length : Int) ≤ p.maxBatchItems)
    (hv : ∀ x ∈ reqs, ∃ r, x = some r ∧ r.JSONRPC = "2.0")
    (hf : p.client.ForwardBatch reqs = .error e) :
    ∃ out, (p.HandleBatchRequest reqs t).1 = .ok out
      ∧ out.length = reqs.length
      ∧ ∀ (i : Nat) (r : JSONRPCRequest), reqs[i]? = some (some r) →
          out[i]? = some (some (NewErrorResponse r.ID (-32603) "failed to forward batch request"))
      := by
  obtain ⟨rs, hrs, hall⟩ := valid_eq_map reqs hv
  subst hrs
  have h0 : rs ≠ [] := by simpa using hne
  have hle : ¬ ((rs.length : Int) > p.maxBatchItems) := by
    simpa using hlen
  refine ⟨rs.map fun r =>
      some (NewErrorResponse r.ID InternalError "failed to forward batch request"), ?_, ?_, ?_⟩
  · simp [Proxy.HandleBatchRequest, h0, hle, checkVersions_all_valid rs hall, hf,
      errorResps_present]
  · simp
  · intro i r hi
    rw [List.getElem?_map] at hi ⊢
    cases hri : rs[i]? with
    | none => simp [hri] at hi
    | some r2 =>
      simp [hri] at hi
      subst hi
      simp [NewErrorResponse, InternalError]

theorem HandleBatchRequest_forward_failure_witness :
    [some fixtures.reqBlockNumber, some fixtures.reqGasPrice] ≠ []
      ∧ (([some fixtures.reqBlockNumber, some fixtures.reqGasPrice].length : Int)
          ≤ fixtures.proxyRefused.maxBatchItems)
      ∧ (∃ out, (fixtures.proxyRefused.HandleBatchRequest
            [some fixtures.reqBlockNumber, some fixtures.reqGasPrice] []).1 = .ok out
          ∧ out.length = [some fixtures.reqBlockNumber, some fixtures.reqGasPrice].length
          ∧ ∀ (i : Nat) (r : JSONRPCRequest),
              [some fixtures.reqBlockNumber, some fixtures.reqGasPrice][i]? = some (some r) →
              out[i]? = some (some
                (NewErrorResponse r.ID (-32603) "failed to forward batch request"))) :=
  ⟨by decide, by decide,
    HandleBatchRequest_forward_failure fixtures.proxyRefused
      [some fixtures.reqBlockNumber, some fixtures.reqGasPrice] []
      ("upstream batch request failed: "
        ++ "dial tcp 127.0.0.1:8546: connect: connection refused")
      (by decide) (by decide)
      (fun x hx => by
        simp at hx
        rcases hx with rfl | rfl
        · exact ⟨fixtures.reqBlockNumber, rfl, rfl⟩
        · exact ⟨fixtures.reqGasPrice, rfl, rfl⟩)
      rfl⟩

/-- C8: for a non-empty batch within the maximum batch item count whose entries all have
version "2.0", whatever their methods, HandleBatchRequest invokes ForwardBatch exactly
once, with the unmodified input (the trace grows by that one call), and when that call
succeeds with a sequence `s` it returns exactly `s`. -/
theorem HandleBatchRequest_forwards_verbatim (p : Proxy)
    (reqs : List (Option JSONRPCRequest)) (t : Trace)
    (hne : reqs ≠ []) (hlen : (reqs.length : Int) ≤ p.maxBatchItems)
    (hv : ∀ x ∈ reqs, ∃ r, x = some r ∧ r.JSONRPC = "2.0") :
    (p.HandleBatchRequest reqs t).2 = t ++ [ClientCall.ForwardBatch reqs]
      ∧ ∀ s, p.client.ForwardBatch reqs = .ok s → (p.HandleBatchRequest reqs t).1 = .ok s := by
  obtain ⟨rs, hrs, hall⟩ := valid_eq_map reqs hv
  subst hrs
  have h0 : rs ≠ [] := by simpa using hne
  have hle : ¬ ((rs.length : Int) > p.maxBatchItems) := by
    simpa using hlen
  constructor
  · cases hf : p.client.ForwardBatch (rs.map some) <;>
      simp [Proxy.HandleBatchRequest, h0, hle, checkVersions_all_valid rs hall, hf]
  · intro s hf
    simp [Proxy.HandleBatchRequest, h0, hle, checkVersions_all_valid rs hall, hf]

theorem HandleBatchRequest_forwards_verbatim_witness :
    [some fixtures.reqEmptyMethod, some fixtures.reqGasPrice] ≠ []
      ∧ (([some fixtures.reqEmptyMethod, some fixtures.reqGasPrice].length : Int)
          ≤ fixtures.proxyBatchOk.maxBatchItems)
      ∧ fixtures.proxyBatchOk.client.ForwardBatch
          [some fixtures.reqEmptyMethod, some fixtures.reqGasPrice] = .ok fixtures.respsOk
      ∧ (fixtures.proxyBatchOk.HandleBatchRequest
            [some fixtures.reqEmptyMethod, some fixtures.reqGasPrice] []).2
          = [] ++ [ClientCall.ForwardBatch
                    [some fixtures.reqEmptyMethod, some fixtures.reqGasPrice]]
      ∧ ∀ s, fixtures.proxyBatchOk.client.ForwardBatch
            [some fixtures.reqEmptyMethod, some fixtures.reqGasPrice] = .ok s →
          (fixtures.proxyBatchOk.HandleBatchRequest
            [some fixtures.reqEmptyMethod, some fixtures.reqGasPrice] []).1 = .ok s :=
  ⟨by decide, by decide, rfl,
    HandleBatchRequest_forwards_verbatim fixtures.proxyBatchOk
      [some fixtures.reqEmptyMethod, some fixtures.reqGasPrice] []
      (by decide) (by decide)
      (fun x hx => by
        simp at hx
        rcases hx with rfl | rfl
        · exact ⟨fixtures.reqEmptyMethod, rfl, rfl⟩
        · exact ⟨fixtures.reqGasPrice, rfl, rfl⟩)⟩

/-! ## Invariants of the returned responses -/

/-- C9, as stated, fails: a one-request batch forwarded to an upstream that answers
HTTP 200 with the JSON array `[]` makes HandleBatchRequest return the empty sequence. -/
theorem HandleBatchRequest_can_return_empty :
    (fixtures.proxyEmptyArray.HandleBatchRequest [some fixtures.reqBlockNumber] []).1 = .ok []
      ∧ ¬ ∃ out, (fixtures.proxyEmptyArray.HandleBatchRequest
                    [some fixtures.reqBlockNumber] []).1 = .ok out ∧ out ≠ [] := by
  have h : (fixtures.proxyEmptyArray.HandleBatchRequest [some fixtures.reqBlockNumber] []).1
      = .ok [] := rfl
  refine ⟨h, ?_⟩
  rintro ⟨out, ho, hne⟩
  rw [h] at ho
  cases ho
  exact hne rfl

/-- C9, amended: for every batch of present requests, every proxy and every outcome of the
forwarding client, HandleBatchRequest returns a sequence, and that sequence is empty
exactly when the batch was forwarded (non-empty, within the maximum batch item count,
every version "2.0") and ForwardBatch succeeded with the empty sequence; in every other
case it is non-empty. -/
theorem HandleBatchRequest_nonempty_unless_upstream_empty (p : Proxy)
    (reqs : List (Option JSONRPCRequest)) (t : Trace) (hpres : ∀ x ∈ reqs, x ≠ none) :
    ∃ out, (p.HandleBatchRequest reqs t).1 = .ok out
      ∧ (out = [] ↔
          (reqs ≠ [] ∧ (reqs.length : Int) ≤ p.maxBatchItems
            ∧ (∀ x ∈ reqs, ∃ r, x = some r ∧ r.JSONRPC = "2.0")
            ∧ p.client.ForwardBatch reqs = .ok [])) := by
  obtain ⟨rs, hrs⟩ := present_eq_map reqs hpres
  subst hrs
  by_cases h0 : rs = []
  · subst h0
    exact ⟨_, by simp [Proxy.HandleBatchRequest]; rfl, by simp⟩
  by_cases hlen : (rs.length : Int) > p.maxBatchItems
  · refine ⟨_, by simp [Proxy.HandleBatchRequest, h0, hlen]; rfl, ?_⟩
    have : ¬ ((rs.length : Int) ≤ p.maxBatchItems) := not_le.mpr hlen
    simp [this]
  have hle : (rs.length : Int) ≤ p.maxBatchItems := not_lt.mp hlen
  rcases checkVersions_present rs with ⟨hc, hall⟩ | ⟨resp, hc, ⟨r, hr, hrv⟩, _⟩
  · cases hf : p.client.ForwardBatch (rs.map some) with
    | error e =>
      refine ⟨rs.map fun r =>
        some (NewErrorResponse r.ID InternalError "failed to forward batch request"), ?_, ?_⟩
      · simp [Proxy.HandleBatchRequest, h0, hlen, hc, hf, errorResps_present]
      · simp [h0]
    | ok s =>
      refine ⟨s, by simp [Proxy.HandleBatchRequest, h0, hlen, hc, hf], ?_⟩
      constructor
      · intro hs
        subst hs
        refine ⟨by simpa using h0, by simpa using hle, ?_, rfl⟩
        intro x hx
        obtain ⟨r, hr, rfl⟩ := List.mem_map.mp hx
        exact ⟨r, rfl, hall r hr⟩
      · rintro ⟨_, _, _, hs⟩
        cases hs
        rfl
  · refine ⟨[some resp], by simp [Proxy.HandleBatchRequest, h0, hlen, hc], ?_⟩
    constructor
    · intro h
      cases h
    · rintro ⟨_, _, hv, _⟩
      obtain ⟨r2, hr2, hv2⟩ := hv (some r) (List.mem_map.mpr ⟨r, hr, rfl⟩)
      cases hr2
      exact absurd hv2 hrv

theorem HandleBatchRequest_nonempty_unless_upstream_empty_witness :
    (∀ x ∈ [some fixtures.reqBlockNumber, some fixtures.reqOldVersion], x ≠ none)
      ∧ ∃ out, (fixtures.proxyEmptyArray.HandleBatchRequest
                  [some fixtures.reqBlockNumber, some fixtures.reqOldVersion] []).1 = .ok out
        ∧ (out = [] ↔
            ([some fixtures.reqBlockNumber, some fixtures.reqOldVersion] ≠ []
              ∧ (([some fixtures.reqBlockNumber, some fixtures.reqOldVersion].length : Int)
                  ≤ fixtures.proxyEmptyArray.maxBatchItems)
              ∧ (∀ x ∈ [some fixtures.reqBlockNumber, some fixtures.reqOldVersion],
                  ∃ r, x = some r ∧ r.JSONRPC = "2.0")
              ∧ fixtures.proxyEmptyArray.client.ForwardBatch
                  [some fixtures.reqBlockNumber, some fixtures.reqOldVersion] = .ok [])) :=
  ⟨by decide,
    HandleBatchRequest_nonempty_unless_upstream_empty fixtures.proxyEmptyArray
      [some fixtures.reqBlockNumber, some fixtures.reqOldVersion] [] (by decide)⟩

/-- C10, as stated, fails: when the upstream answers HTTP 200 with an object that has
neither `result` nor `error`, HandleRequest returns a Response with neither. -/
theorem HandleRequest_can_return_neither :
    ¬ ExactlyOneOfResultError
        (fixtures.proxyNeither.HandleRequest fixtures.reqBlockNumber []).1 := by
  decide

end proxy

/-! ## Alignment of batch responses with the batch -/

namespace proxy

open rpc

/-- C11, as stated, fails: a one-request batch that passes every check is forwarded, the
upstream answers HTTP 200 with an array of two Responses, and HandleBatchRequest returns
those two Responses for the one request. -/
theorem HandleBatchRequest_can_return_misaligned :
    [some fixtures.reqBlockNumber] ≠ []
      ∧ (([some fixtures.reqBlockNumber].length : Int) ≤ fixtures.proxyBatchOk.maxBatchItems)
      ∧ (∀ x ∈ [some fixtures.reqBlockNumber], ∃ r, x = some r ∧ r.JSONRPC = "2.0")
      ∧ (fixtures.proxyBatchOk.HandleBatchRequest [some fixtures.reqBlockNumber] []).1
          = .ok fixtures.respsOk
      ∧ ¬ ∃ out, (fixtures.proxyBatchOk.HandleBatchRequest
                    [some fixtures.reqBlockNumber] []).1 = .ok out
            ∧ AlignedWith [some fixtures.reqBlockNumber] out := by
  have h : (fixtures.proxyBatchOk.HandleBatchRequest [some fixtures.reqBlockNumber] []).1
      = .ok fixtures.respsOk := rfl
  refine ⟨by decide, by decide, by decide, h, ?_⟩
  rintro ⟨out, ho, hlen, _⟩
  rw [h] at ho
  cases ho
  simp [fixtures.respsOk] at hlen

/-- C11, amended: for every batch that is not rejected as a whole (non-empty, within the
maximum batch item count, every entry with version "2.0"), HandleBatchRequest returns a
sequence; when ForwardBatch fails, that sequence has the length of the input and its i-th
Response carries the id of the i-th request; when ForwardBatch succeeds with `s`, that
sequence is `s` itself, unchanged, so it is aligned with the batch exactly when `s` is. -/
theorem HandleBatchRequest_aligned_iff_upstream_aligned (p : Proxy)
    (reqs : List (Option JSONRPCRequest)) (t : Trace)
    (hne : reqs ≠ []) (hlen : (reqs.length : Int) ≤ p.maxBatchItems)
    (hv : ∀ x ∈ reqs, ∃ r, x = some r ∧ r.JSONRPC = "2.0") :
    ∃ out, (p.HandleBatchRequest reqs t).1 = .ok out
      ∧ (∀ e, p.client.ForwardBatch reqs = .error e → AlignedWith reqs out)
      ∧ (∀ s, p.client.ForwardBatch reqs = .ok s →
          out = s ∧ (AlignedWith reqs out ↔ AlignedWith reqs s)) := by
  obtain ⟨rs, hrs, hall⟩ := valid_eq_map reqs hv
  subst hrs
  have h0 : rs ≠ [] := by simpa using hne
  have hle : ¬ ((rs.length : Int) > p.maxBatchItems) := by
    simpa using hlen
  cases hf : p.client.ForwardBatch (rs.map some) with
  | ok s =>
    refine ⟨s, by simp [Proxy.HandleBatchRequest, h0, hle, checkVersions_all_valid rs hall, hf],
      ?_, ?_⟩
    · intro e he
      cases he
    · intro s2 hs2
      cases hs2
      exact ⟨rfl, Iff.rfl⟩
  | error e =>
    refine ⟨rs.map fun r =>
        some (NewErrorResponse r.ID InternalError "failed to forward batch request"), ?_, ?_, ?_⟩
    · simp [Proxy.HandleBatchRequest, h0, hle, checkVersions_all_valid rs hall, hf,
        errorResps_present]
    · intro _ _
      refine ⟨by simp, ?_⟩
      intro i r hi
      rw [List.getElem?_map] at hi
      cases hri : rs[i]? with
      | none => simp [hri] at hi
      | some r2 =>
        simp [hri] at hi
        subst hi
        exact ⟨NewErrorResponse r2.ID InternalError "failed to forward batch request",
          by simp [List.getElem?_map, hri], rfl⟩
    · intro s hs
      cases hs

theorem HandleBatchRequest_aligned_iff_upstream_aligned_witness :
    [some fixtures.reqGasPrice, some fixtures.reqBlockNumber] ≠ []
      ∧ (([some fixtures.reqGasPrice, some fixtures.reqBlockNumber].length : Int)
          ≤ fixtures.proxyBatchOk.maxBatchItems)
      ∧ fixtures.proxyBatchOk.client.ForwardBatch
          [some fixtures.reqGasPrice, some fixtures.reqBlockNumber] = .ok fixtures.respsOk
      ∧ ∃ out, (fixtures.proxyBatchOk.HandleBatchRequest
                  [some fixtures.reqGasPrice, some fixtures.reqBlockNumber] []).1 = .ok out
          ∧ (∀ e, fixtures.proxyBatchOk.client.ForwardBatch
                [some fixtures.reqGasPrice, some fixtures.reqBlockNumber] = .error e →
              AlignedWith [some fixtures.reqGasPrice, some fixtures.reqBlockNumber] out)
          ∧ (∀ s, fixtures.proxyBatchOk.client.ForwardBatch
                [some fixtures.reqGasPrice, some fixtures.reqBlockNumber] = .ok s →
              out = s
                ∧ (AlignedWith [some fixtures.reqGasPrice, some fixtures.reqBlockNumber] out
                    ↔ AlignedWith [some fixtures.reqGasPrice, some fixtures.reqBlockNumber] s)) :=
  ⟨by decide, by decide, rfl,
    HandleBatchRequest_aligned_iff_upstream_aligned fixtures.proxyBatchOk
      [some fixtures.reqGasPrice, some fixtures.reqBlockNumber] []
      (by decide) (by decide)
      (fun x hx => by
        simp at hx
        rcases hx with rfl | rfl
        · exact ⟨fixtures.reqGasPrice, rfl, rfl⟩
        · exact ⟨fixtures.reqBlockNumber, rfl, rfl⟩)⟩

end proxy

/-! ## The forwarding client -/

namespace rpc

/-- What `forwardSingle` returns once the request was marshalled and sent and a reply
with status `resp.StatusCode` and readable body `body` came back. -/
theorem forwardSingle_of_reply (c : Client) (req : JSONRPCRequest) (reqBody body : String)
    (httpReq : HTTPRequest) (resp : HTTPResponse)
    (hm : c.env.Marshal req = .ok reqBody)
    (hn : c.env.NewRequestWithContext "POST" c.url reqBody = .ok httpReq)
    (hd : c.env.Do (httpReq.setContentType "application/json") = .ok resp)
    (hb : resp.Body = .ok body) :
    c.forwardSingle req
      = if resp.StatusCode ≠ StatusOK then
          .ok (NewErrorResponse req.ID ServerError
            (if resp.StatusCode = StatusRequestTimeout
                ∨ resp.StatusCode = StatusGatewayTimeout then "upstream timeout"
              else "upstream error"))
        else
          match c.env.Unmarshal body with
          | .error err => .error ("failed to unmarshal response: " ++ err)
          | .ok rpcResp => .ok rpcResp := by
  simp only [Client.forwardSingle, hm, hn, hd, hb]

/-- What `ForwardBatch` returns once the batch was marshalled and sent and a reply with
status `resp.StatusCode` and readable body `body` came back. -/
theorem ForwardBatch_of_reply (c : Client) (reqs : List (Option JSONRPCRequest))
    (reqBody body : String) (httpReq : HTTPRequest) (resp : HTTPResponse)
    (hm : c.env.MarshalBatch reqs = .ok reqBody)
    (hn : c.env.NewRequestWithContext "POST" c.url reqBody = .ok httpReq)
    (hd : c.env.Do (httpReq.setContentType "application/json") = .ok resp)
    (hb : resp.Body = .ok body) :
    c.ForwardBatch reqs
      = if resp.StatusCode ≠ StatusOK then
          .error ("upstream returned status " ++ toString resp.StatusCode)
        else
          match c.env.UnmarshalBatch body with
          | .error err => .error ("failed to unmarshal batch response: " ++ err)
          | .ok rpcResps => .ok rpcResps := by
  simp only [Client.ForwardBatch, hm, hn, hd, hb]

/-- C12, as stated, fails: when the upstream answers HTTP 500 and reading the body of
that reply fails, Forward fails with "failed to read response" instead of returning a
ServerError Response; the body is read before the status is looked at. -/
theorem Forward_fails_on_unreadable_body :
    fixtures.clientStatus500Unreadable.env.Do
        (fixtures.httpReqBlockNumber.setContentType "application/json")
        = .ok { StatusCode := 500, Body := .error "unexpected EOF" }
      ∧ ¬ (200 ≤ (500 : Int) ∧ (500 : Int) < 300)
      ∧ fixtures.clientStatus500Unreadable.Forward fixtures.reqBlockNumber
          = .error "failed to read response: unexpected EOF"
      ∧ ¬ ∃ r, fixtures.clientStatus500Unreadable.Forward fixtures.reqBlockNumber = .ok r := by
  have h : fixtures.clientStatus500Unreadable.Forward fixtures.reqBlockNumber
      = .error "failed to read response: unexpected EOF" := rfl
  refine ⟨rfl, by decide, h, ?_⟩
  rintro ⟨r, hr⟩
  rw [h] at hr
  cases hr

/-- C12, amended: when the request was sent and a reply came back with a non-success
(non-2xx) HTTP status, then, if the body of the reply could be read, whatever it
contains, Forward does not fail and returns the Response with version "2.0", the
request's id, no result and error code ServerError (-32000), whose message is "upstream
timeout" for status 408 or 504 and "upstream error" for every other non-success status;
if reading the body failed, Forward fails with "failed to read response". -/
theorem Forward_non_success_status (c : Client) (req : JSONRPCRequest)
    (reqBody : String) (httpReq : HTTPRequest) (resp : HTTPResponse)
    (hm : c.env.Marshal req = .ok reqBody)
    (hn : c.env.NewRequestWithContext "POST" c.url reqBody = .ok httpReq)
    (hd : c.env.Do (httpReq.setContentType "application/json") = .ok resp)
    (hs : ¬ (200 ≤ resp.StatusCode ∧ resp.StatusCode < 300)) :
    (∀ body, resp.Body = .ok body →
        c.Forward req
          = .ok { JSONRPC := "2.0", Result := none,
                  Error := some { Code := -32000,
                                  Message := if resp.StatusCode = 408 ∨ resp.StatusCode = 504
                                    then "upstream timeout" else "upstream error",
                                  Data := none },
                  ID := req.ID })
      ∧ (∀ err, resp.Body = .error err →
          c.Forward req = .error ("failed to read response: " ++ err)) := by
  have hne : resp.StatusCode ≠ StatusOK := by
    intro h
    apply hs
    rw [h]
    decide
  constructor
  · intro body hb
    rw [Client.Forward, forwardSingle_of_reply c req reqBody body httpReq resp hm hn hd hb]
    simp [hne, NewErrorResponse, ServerError, StatusRequestTimeout, StatusGatewayTimeout]
  · intro err hb
    simp only [Client.Forward, Client.forwardSingle, hm, hn, hd, hb]

theorem Forward_non_success_status_witness :
    ¬ (200 ≤ (500 : Int) ∧ (500 : Int) < 300)
      ∧ ¬ (200 ≤ (504 : Int) ∧ (504 : Int) < 300)
      ∧ fixtures.clientStatus500.Forward fixtures.reqBlockNumber
          = .ok { JSONRPC := "2.0", Result := none,
                  Error := some { Code := -32000, Message := "upstream error", Data := none },
                  ID := IDValue.number 1 }
      ∧ fixtures.clientStatus504.Forward fixtures.reqBlockNumber
          = .ok { JSONRPC := "2.0", Result := none,
                  Error := some { Code := -32000, Message := "upstream timeout", Data := none },
                  ID := IDValue.number 1 }
      ∧ fixtures.clientStatus500Unreadable.Forward fixtures.reqBlockNumber
          = .error ("failed to read response: " ++ "unexpected EOF") :=
  ⟨by decide, by decide,
    (Forward_non_success_status fixtures.clientStatus500 fixtures.reqBlockNumber
      fixtures.httpReqBlockNumber.Body fixtures.httpReqBlockNumber
      { StatusCode := 500, Body := .ok "server error" } rfl rfl rfl (by decide)).1
      "server error" rfl,
    (Forward_non_success_status fixtures.clientStatus504 fixtures.reqBlockNumber
      fixtures.httpReqBlockNumber.Body fixtures.httpReqBlockNumber
      { StatusCode := 504, Body := .ok "gateway timeout" } rfl rfl rfl (by decide)).1
      "gateway timeout" rfl,
    (Forward_non_success_status fixtures.clientStatus500Unreadable fixtures.reqBlockNumber
      fixtures.httpReqBlockNumber.Body fixtures.httpReqBlockNumber
      { StatusCode := 500, Body := .error "unexpected EOF" } rfl rfl rfl (by decide)).2
      "unexpected EOF" rfl⟩

/-- C13: the code does not do what the claim says. When the upstream answers a batch with
HTTP 500, ForwardBatch fails with the error "upstream returned status 500" and returns no
Response, and HandleBatchRequest reports that failure as InternalError (-32603)
envelopes; for the same reply to a single request, Forward returns the ServerError
(-32000) envelope "upstream error". -/
theorem ForwardBatch_fails_on_status_500 :
    fixtures.clientStatus500.env.Do
        (fixtures.httpReqBatchOfTwo.setContentType "application/json")
        = .ok { StatusCode := 500, Body := .ok "server error" }
      ∧ fixtures.clientStatus500.ForwardBatch
          [some fixtures.reqBlockNumber, some fixtures.reqGasPrice]
          = .error "upstream returned status 500"
      ∧ (¬ ∃ s, fixtures.clientStatus500.ForwardBatch
                [some fixtures.reqBlockNumber, some fixtures.reqGasPrice] = .ok s)
      ∧ (fixtures.proxyStatus500.HandleBatchRequest
            [some fixtures.reqBlockNumber, some fixtures.reqGasPrice] []).1
          = .ok [some (NewErrorResponse (IDValue.number 1) (-32603)
                        "failed to forward batch request"),
                 some (NewErrorResponse (IDValue.number 2) (-32603)
                        "failed to forward batch request")]
      ∧ fixtures.clientStatus500.Forward fixtures.reqBlockNumber
          = .ok (NewErrorResponse (IDValue.number 1) (-32000) "upstream error") := by
  have h : fixtures.clientStatus500.ForwardBatch
      [some fixtures.reqBlockNumber, some fixtures.reqGasPrice]
        = .error "upstream returned status 500" := rfl
  refine ⟨rfl, h, ?_, rfl, rfl⟩
  rintro ⟨s, hs⟩
  rw [h] at hs
  cases hs

/-- C14, as stated, fails: when the upstream answers HTTP 201, a success (2xx) status,
with a well-formed JSON-RPC Response body, Forward does not return the decoded Response
but the ServerError envelope "upstream error". -/
theorem Forward_status_201_not_passed_through :
    (200 ≤ (201 : Int) ∧ (201 : Int) < 300)
      ∧ fixtures.clientStatus201.env.Do
          (fixtures.httpReqBlockNumber.setContentType "application/json")
          = .ok { StatusCode := 201, Body := .ok fixtures.bodyOk }
      ∧ fixtures.clientStatus201.env.Unmarshal fixtures.bodyOk = .ok fixtures.respOk
      ∧ fixtures.clientStatus201.Forward fixtures.reqBlockNumber
          = .ok { JSONRPC := "2.0", Result := none,
                  Error := some { Code := -32000, Message := "upstream error", Data := none },
                  ID := fixtures.reqBlockNumber.ID }
      ∧ fixtures.clientStatus201.Forward fixtures.reqBlockNumber ≠ .ok fixtures.respOk := by
  have h : fixtures.clientStatus201.Forward fixtures.reqBlockNumber
      = .ok { JSONRPC := "2.0", Result := none,
              Error := some { Code := -32000, Message := "upstream error", Data := none },
              ID := fixtures.reqBlockNumber.ID } := rfl
  refine ⟨by decide, rfl, rfl, h, ?_⟩
  rw [h]
  intro heq
  injection heq with h2
  exact absurd h2 (by decide)

/-- C14, amended: when the request was sent and a reply came back whose body could be
read, then, if the HTTP status is 200 and the body decodes to the JSON-RPC Response `r`,
Forward succeeds and returns `r` verbatim; and if the status is anything other than 200,
the other 2xx statuses included, Forward returns the ServerError (-32000) envelope with
the request's id, whether or not the body is a well-formed Response. -/
theorem Forward_passes_through_only_status_200 (c : Client) (req : JSONRPCRequest)
    (reqBody body : String) (httpReq : HTTPRequest) (resp : HTTPResponse)
    (hm : c.env.Marshal req = .ok reqBody)
    (hn : c.env.NewRequestWithContext "POST" c.url reqBody = .ok httpReq)
    (hd : c.env.Do (httpReq.setContentType "application/json") = .ok resp)
    (hb : resp.Body = .ok body) :
    (resp.StatusCode = 200 → ∀ r, c.env.Unmarshal body = .ok r → c.Forward req = .ok r)
      ∧ (resp.StatusCode ≠ 200 →
          c.Forward req
            = .ok { JSONRPC := "2.0", Result := none,
                    Error := some { Code := -32000,
                                    Message := if resp.StatusCode = 408 ∨ resp.StatusCode = 504
                                      then "upstream timeout" else "upstream error",
                                    Data := none },
                    ID := req.ID }) := by
  rw [Client.Forward, forwardSingle_of_reply c req reqBody body httpReq resp hm hn hd hb]
  constructor
  · intro h r hu
    simp [h, StatusOK, hu]
  · intro h
    simp [h, StatusOK, NewErrorResponse, ServerError, StatusRequestTimeout,
      StatusGatewayTimeout]

theorem Forward_passes_through_only_status_200_witness :
    fixtures.clientStatus200.env.Do
        (fixtures.httpReqBlockNumber.setContentType "application/json")
        = .ok { StatusCode := 200, Body := .ok fixtures.bodyOk }
      ∧ fixtures.clientStatus200.env.Unmarshal fixtures.bodyOk = .ok fixtures.respOk
      ∧ fixtures.clientStatus200.Forward fixtures.reqBlockNumber = .ok fixtures.respOk
      ∧ fixtures.clientStatus201.env.Do
          (fixtures.httpReqBlockNumber.setContentType "application/json")
          = .ok { StatusCode := 201, Body := .ok fixtures.bodyOk }
      ∧ fixtures.clientStatus201.Forward fixtures.reqBlockNumber
          = .ok { JSONRPC := "2.0", Result := none,
                  Error := some { Code := -32000, Message := "upstream error", Data := none },
                  ID := IDValue.number 1 }
      ∧ fixtures.clientStatus500.env.Unmarshal "server error" = .error "invalid character"
      ∧ fixtures.clientStatus500.Forward fixtures.reqBlockNumber
          = .ok { JSONRPC := "2.0", Result := none,
                  Error := some { Code := -32000, Message := "upstream error", Data := none },
                  ID := IDValue.number 1 } :=
  ⟨rfl, rfl,
    (Forward_passes_through_only_status_200 fixtures.clientStatus200 fixtures.reqBlockNumber
      fixtures.httpReqBlockNumber.Body fixtures.bodyOk fixtures.httpReqBlockNumber
      { StatusCode := 200, Body := .ok fixtures.bodyOk } rfl rfl rfl rfl).1 rfl
      fixtures.respOk rfl,
    rfl,
    (Forward_passes_through_only_status_200 fixtures.clientStatus201 fixtures.reqBlockNumber
      fixtures.httpReqBlockNumber.Body fixtures.bodyOk fixtures.httpReqBlockNumber
      { StatusCode := 201, Body := .ok fixtures.bodyOk } rfl rfl rfl rfl).2 (by decide),
    rfl,
    (Forward_passes_through_only_status_200 fixtures.clientStatus500 fixtures.reqBlockNumber
      fixtures.httpReqBlockNumber.Body "server error" fixtures.httpReqBlockNumber
      { StatusCode := 500, Body := .ok "server error" } rfl rfl rfl rfl).2 (by decide)⟩

/-- C15: for every id, code and message, NewErrorResponse returns a Response with version
"2.0", the given id, no result, and an error with the given code and message and no
data. -/
theorem NewErrorResponse_fields (id : IDValue) (code : Int) (message : String) :
    (NewErrorResponse id code message).JSONRPC = "2.0"
      ∧ (NewErrorResponse id code message).ID = id
      ∧ (NewErrorResponse id code message).Result = none
      ∧ ∃ e, (NewErrorResponse id code message).Error = some e
          ∧ e.Code = code ∧ e.Message = message ∧ e.Data = none := by
  exact ⟨rfl, rfl, rfl, _, rfl, rfl, rfl, rfl⟩

end rpc

/-! ## Absent batch entries -/

namespace proxy

open rpc

/-- C16: the batch `[nil]`, which the boundary adapter obtains by decoding the JSON array
`[null]` into a `[]*rpc.JSONRPCRequest`, passes the two length guards of a proxy with the
default limit of 100 items and makes the version loop of HandleBatchRequest read
`req.JSONRPC` through the nil entry: the call ends in a nil-pointer panic, returns no
Response, and never reaches the forwarding client. -/
theorem HandleBatchRequest_nil_entry_faults :
    fixtures.proxyRefused.HandleBatchRequest [none] []
      = (.error Fault.nilPointerDereference, []) := rfl

end proxy

/-! ## Where every returned Response comes from -/

namespace rpc

/-- A Response that Forward returns is either the ServerError envelope the client built
for the request, or what was decoded from the upstream's HTTP 200 reply to that request. -/
theorem Forward_ok_built_or_decoded (c : Client) (req : JSONRPCRequest) (r : JSONRPCResponse)
    (h : c.Forward req = .ok r) :
    (∃ msg, r = NewErrorResponse req.ID ServerError msg) ∨ c.DecodedFromReply req r := by
  unfold Client.Forward Client.forwardSingle at h
  cases hm : c.env.Marshal req with
  | error e => simp [hm] at h
  | ok reqBody =>
    cases hn : c.env.NewRequestWithContext "POST" c.url reqBody with
    | error e => simp [hm, hn] at h
    | ok httpReq =>
      cases hd : c.env.Do (httpReq.setContentType "application/json") with
      | error e => simp [hm, hn, hd] at h
      | ok resp =>
        cases hb : resp.Body with
        | error e => simp [hm, hn, hd, hb] at h
        | ok body =>
          simp only [hm, hn, hd, hb] at h
          by_cases hs : resp.StatusCode = StatusOK
          · right
            cases hu : c.env.Unmarshal body with
            | error e => simp [hs, hu] at h
            | ok rpcResp =>
              simp [hs, hu] at h
              subst h
              exact ⟨reqBody, body, httpReq, resp, hm, hn, hd, hs, hb, hu⟩
          · left
            simp [hs] at h
            exact ⟨_, h.symm⟩

/-- A sequence that ForwardBatch returns is what was decoded from the upstream's HTTP 200
reply to that batch. -/
theorem ForwardBatch_ok_decoded (c : Client) (reqs : List (Option JSONRPCRequest))
    (s : List (Option JSONRPCResponse)) (h : c.ForwardBatch reqs = .ok s) :
    c.DecodedFromBatchReply reqs s := by
  unfold Client.ForwardBatch at h
  cases hm : c.env.MarshalBatch reqs with
  | error e => simp [hm] at h
  | ok reqBody =>
    cases hn : c.env.NewRequestWithContext "POST" c.url reqBody with
    | error e => simp [hm, hn] at h
    | ok httpReq =>
      cases hd : c.env.Do (httpReq.setContentType "application/json") with
      | error e => simp [hm, hn, hd] at h
      | ok resp =>
        cases hb : resp.Body with
        | error e => simp [hm, hn, hd, hb] at h
        | ok body =>
          simp only [hm, hn, hd, hb] at h
          by_cases hs : resp.StatusCode = StatusOK
          · cases hu : c.env.UnmarshalBatch body with
            | error e => simp [hs, hu] at h
            | ok rpcResps =>
              simp [hs, hu] at h
              subst h
              exact ⟨reqBody, body, httpReq, resp, hm, hn, hd, hs, hb, hu⟩
          · simp [hs] at h

end rpc

namespace proxy

open rpc

/-- C10, amended: every Response returned by HandleRequest either was built by the relay
or the forwarding client, and then has no result and an error (exactly one of the two),
or is what was decoded from the upstream's HTTP 200 reply to that request, returned
unchanged. For every batch of present requests HandleBatchRequest returns a sequence that
either consists of Responses built by the relay, each with no result and an error
(exactly one of the two), or is the sequence decoded from the upstream's HTTP 200 reply to
that batch, returned unchanged. -/
theorem responses_built_or_decoded (p : Proxy) (req : JSONRPCRequest)
    (reqs : List (Option JSONRPCRequest)) (t : Trace) (hpres : ∀ x ∈ reqs, x ≠ none) :
    (((p.HandleRequest req t).1.Result = none
          ∧ (p.HandleRequest req t).1.Error.isSome = true
          ∧ ExactlyOneOfResultError (p.HandleRequest req t).1)
        ∨ p.client.DecodedFromReply req (p.HandleRequest req t).1)
      ∧ ∃ out, (p.HandleBatchRequest reqs t).1 = .ok out
          ∧ ((∀ x ∈ out, ∃ r, x = some r ∧ r.Result = none ∧ r.Error.isSome = true
                ∧ ExactlyOneOfResultError r)
              ∨ p.client.DecodedFromBatchReply reqs out) := by
  have hnew : ∀ (id : IDValue) (code : Int) (msg : String),
      (NewErrorResponse id code msg).Result = none
        ∧ (NewErrorResponse id code msg).Error.isSome = true
        ∧ ExactlyOneOfResultError (NewErrorResponse id code msg) := by
    intro id code msg
    exact ⟨rfl, rfl, Or.inr ⟨rfl, rfl⟩⟩
  constructor
  · by_cases hv : req.JSONRPC = "2.0"
    · by_cases hm : req.Method = ""
      · left
        simpa [Proxy.HandleRequest, hv, hm] using hnew req.ID InvalidRequest _
      · cases hf : p.client.Forward req with
        | error e =>
          left
          simpa [Proxy.HandleRequest, hv, hm, hf] using hnew req.ID InternalError _
        | ok r =>
          have hout : (p.HandleRequest req t).1 = r := by
            simp [Proxy.HandleRequest, hv, hm, hf]
          rw [hout]
          rcases Forward_ok_built_or_decoded p.client req r hf with ⟨msg, hr⟩ | hdec
          · left
            rw [hr]
            exact hnew _ _ _
          · right
            exact hdec
    · left
      simpa [Proxy.HandleRequest, hv] using hnew req.ID InvalidRequest _
  · obtain ⟨rs, hrs⟩ := present_eq_map reqs hpres
    subst hrs
    by_cases h0 : rs = []
    · subst h0
      refine ⟨_, by simp [Proxy.HandleBatchRequest]; rfl, Or.inl ?_⟩
      intro x hx
      simp at hx
      exact ⟨_, hx, hnew _ _ _⟩
    by_cases hlen : (rs.length : Int) > p.maxBatchItems
    · refine ⟨_, by simp [Proxy.HandleBatchRequest, h0, hlen]; rfl, Or.inl ?_⟩
      intro x hx
      simp at hx
      exact ⟨_, hx, rfl, rfl, Or.inr ⟨rfl, rfl⟩⟩
    rcases checkVersions_present rs with ⟨hc, _⟩ | ⟨resp, hc, _, hres, herr⟩
    · cases hf : p.client.ForwardBatch (rs.map some) with
      | error e =>
        refine ⟨rs.map fun r =>
          some (NewErrorResponse r.ID InternalError "failed to forward batch request"),
          ?_, Or.inl ?_⟩
        · simp [Proxy.HandleBatchRequest, h0, hlen, hc, hf, errorResps_present]
        · intro x hx
          obtain ⟨r, _, rfl⟩ := List.mem_map.mp hx
          exact ⟨_, rfl, hnew _ _ _⟩
      | ok s =>
        exact ⟨s, by simp [Proxy.HandleBatchRequest, h0, hlen, hc, hf],
          Or.inr (ForwardBatch_ok_decoded p.client _ s hf)⟩
    · refine ⟨[some resp], by simp [Proxy.HandleBatchRequest, h0, hlen, hc], Or.inl ?_⟩
      intro x hx
      simp at hx
      exact ⟨resp, hx, hres, herr, Or.inr ⟨by simp [hres], herr⟩⟩

theorem responses_built_or_decoded_witness :
    (∀ x ∈ [some fixtures.reqBlockNumber, some fixtures.reqGasPrice], x ≠ none)
      ∧ (((fixtures.proxyNeither.HandleRequest fixtures.reqBlockNumber []).1.Result = none
            ∧ (fixtures.proxyNeither.HandleRequest fixtures.reqBlockNumber []).1.Error.isSome
                = true
            ∧ ExactlyOneOfResultError
                (fixtures.proxyNeither.HandleRequest fixtures.reqBlockNumber []).1)
          ∨ fixtures.proxyNeither.client.DecodedFromReply fixtures.reqBlockNumber
              (fixtures.proxyNeither.HandleRequest fixtures.reqBlockNumber []).1)
      ∧ ∃ out, (fixtures.proxyNeither.HandleBatchRequest
                  [some fixtures.reqBlockNumber, some fixtures.reqGasPrice] []).1 = .ok out
          ∧ ((∀ x ∈ out, ∃ r, x = some r ∧ r.Result = none ∧ r.Error.isSome = true
                ∧ ExactlyOneOfResultError r)
              ∨ fixtures.proxyNeither.client.DecodedFromBatchReply
                  [some fixtures.reqBlockNumber, some fixtures.reqGasPrice] out) :=
  ⟨by decide,
    responses_built_or_decoded fixtures.proxyNeither fixtures.reqBlockNumber
      [some fixtures.reqBlockNumber, some fixtures.reqGasPrice] [] (by decide)⟩

end proxy
